import Mathlib

/-!
Shallow embedding of the chabot_oficina reconciliation pipeline:
the SQLAlchemy models (`src/core/models.py`), the repositories
(`src/repositories/*.py`), the reconciliation service
(`src/services/service_management.py`) and the intent router
(`src/services/chat_service.py`).

The relational store is a `Store` of in-memory lists; `flush` makes a fresh
id visible, `commit`/`refresh` are no-ops on this model.  SQL `ILIKE`
(SQLAlchemy renders it as `lower(col) LIKE lower(pat)`; `%`/`_` are
wildcards and no escape character is configured) is embedded as
`likeMatch`, which compares literal characters case-insensitively, so that
lowering both sides is already accounted for.
-/

namespace Oficina

/-- A calendar date, as produced by `datetime.strptime(s, '%Y-%m-%d').date()`. -/
structure PDate where
  year : Nat
  month : Nat
  day : Nat
deriving DecidableEq, Repr

/-- Row of the `clients` table (`src/core/models.py`, class `Client`). -/
structure Client where
  id : Nat
  name : String
  phone : Option String
deriving DecidableEq, Repr

/-- Row of the `cars` table (`src/core/models.py`, class `Car`).
`brand`, `color`, `year` are nullable columns. -/
structure Car where
  id : Nat
  brand : Option String
  model : String
  color : Option String
  year : Option Int
  client_id : Nat
deriving DecidableEq, Repr

/-- Row of the `service_records` table (`src/core/models.py`,
class `ServiceRecord`).  `created_at` is embedded as a logical clock tick
(the store's `now` at insertion time); `active` defaults to `true`. -/
structure ServiceRecord where
  id : Nat
  car_id : Nat
  servico : String
  date : PDate
  valor : Option Rat
  observations : Option String
  created_at : Nat
  active : Bool
deriving DecidableEq, Repr

/-- The relational store: the three tables plus id sequences and the clock
(`now` stands for the wall-clock instant that feeds `created_at`;
`today` for `datetime.now().date()`). -/
structure Store where
  clients : List Client
  cars : List Car
  records : List ServiceRecord
  nextClientId : Nat
  nextCarId : Nat
  nextRecordId : Nat
  now : Nat
  today : PDate
deriving DecidableEq, Repr

/-- All suffixes of a character list, longest first. -/
def sufList : List Char → List (List Char)
  | [] => [[]]
  | c :: t => (c :: t) :: sufList t

/-- SQL `LIKE` pattern matching over characters, with the comparison of
literal characters done case-insensitively: this embeds
`lower(s) LIKE lower(pat)`, which is what SQLAlchemy's `ilike` renders
(`%` matches any run of characters, so the rest of the pattern must
match some suffix; `_` matches any single character; no escape character
is configured). -/
def likeMatch : List Char → List Char → Bool
  | [], s => s.isEmpty
  | '%' :: ps, s => (sufList s).any (fun t => likeMatch ps t)
  | '_' :: ps, s =>
      match s with
      | [] => false
      | _ :: rest => likeMatch ps rest
  | p :: ps, s =>
      match s with
      | [] => false
      | c :: rest => (p.toLower == c.toLower) && likeMatch ps rest

/-- `col ILIKE pat` for a non-nullable string column. -/
def ilikeStr (col pat : String) : Bool :=
  likeMatch pat.data col.data

/-- `col ILIKE pat` for a nullable string column: SQL comparison with NULL
is not true. -/
def ilikeOpt (col : Option String) (pat : String) : Bool :=
  match col with
  | none => false
  | some s => ilikeStr s pat

/-- Case-insensitive equality of strings (the spec's "matches
case-insensitively"). -/
def eqci (a b : String) : Bool :=
  a.data.map Char.toLower == b.data.map Char.toLower

/-- Python truthiness of an optional string: `None` and `""` are falsy. -/
def falsyStr : Option String → Bool
  | none => true
  | some s => s == ""

/-- The WHERE clause of `ClientRepository.get_or_create_client`:
`name ILIKE <name>`, AND `phone == <phone>` when a truthy phone was
given. -/
def clientPred (name : String) (phone : Option String) (c : Client) : Bool :=
  ilikeStr c.name name &&
    (if falsyStr phone then true else c.phone == phone)

/-- `ClientRepository.get_or_create_client` (`client_repository.py`):
filter clients by `clientPred`, take the first row; create and flush
otherwise. -/
def getOrCreateClient (st : Store) (name : String) (phone : Option String) :
    Client × Store :=
  match (st.clients.filter (clientPred name phone)).head? with
  | some c => (c, st)
  | none =>
      let c : Client := { id := st.nextClientId, name := name, phone := phone }
      (c, { st with clients := st.clients ++ [c],
                    nextClientId := st.nextClientId + 1 })

/-- The WHERE clause of `CarRepository.get_or_create_car`: the client's
cars, always `model ILIKE <model>`, and each of brand/color/year only
when that argument is not `None`. -/
def carPred (client_id : Nat) (brand : Option String) (model : String)
    (color : Option String) (year : Option Int) (car : Car) : Bool :=
  car.client_id == client_id &&
  ilikeStr car.model model &&
  (match brand with
   | none => true
   | some b => ilikeOpt car.brand b) &&
  (match color with
   | none => true
   | some col => ilikeOpt car.color col) &&
  (match year with
   | none => true
   | some y => car.year == some y)

/-- `CarRepository.get_or_create_car` (`car_repository.py`): filter by
`carPred`, take the first row; create and flush otherwise. -/
def getOrCreateCar (st : Store) (client_id : Nat) (brand : Option String)
    (model : String) (color : Option String) (year : Option Int) :
    Car × Store :=
  match (st.cars.filter (carPred client_id brand model color year)).head? with
  | some car => (car, st)
  | none =>
      let car : Car := { id := st.nextCarId, brand := brand, model := model,
                         color := color, year := year, client_id := client_id }
      (car, { st with cars := st.cars ++ [car],
                      nextCarId := st.nextCarId + 1 })

/-- `ServiceRecordRepository.create_service_record`: always inserts. -/
def repoCreateServiceRecord (st : Store) (car_id : Nat) (servico : String)
    (date : PDate) (valor : Option Rat) (observations : Option String) :
    ServiceRecord × Store :=
  let r : ServiceRecord :=
    { id := st.nextRecordId, car_id := car_id, servico := servico,
      date := date, valor := valor, observations := observations,
      created_at := st.now, active := true }
  (r, { st with records := st.records ++ [r],
                nextRecordId := st.nextRecordId + 1,
                now := st.now + 1 })

/-- Digits of a numeral to its value. -/
def digitsToNat (l : List Char) : Nat :=
  l.foldl (fun a c => a * 10 + (c.toNat - '0'.toNat)) 0

/-- One 1-or-2-digit field of `strptime`, mirroring the regex alternations
used for `%m` (`1[0-2]|0[1-9]|[1-9]`) and `%d`
(`3[01]|[12]\d|0[1-9]|[1-9]`): two digits whose value lies in
`[lo, hi]`, else a single digit in `[1, 9]`. -/
def parseField2 (lo hi : Nat) : List Char → Option (Nat × List Char)
  | a :: b :: rest =>
      if a.isDigit && b.isDigit &&
          lo ≤ digitsToNat [a, b] && digitsToNat [a, b] ≤ hi then
        some (digitsToNat [a, b], rest)
      else if a.isDigit && 1 ≤ digitsToNat [a] && digitsToNat [a] ≤ 9 then
        some (digitsToNat [a], b :: rest)
      else none
  | [a] =>
      if a.isDigit && 1 ≤ digitsToNat [a] && digitsToNat [a] ≤ 9 then
        some (digitsToNat [a], [])
      else none
  | [] => none

/-- Gregorian leap year, as `datetime` uses it. -/
def leapYear (y : Nat) : Bool :=
  y % 4 == 0 && (y % 100 != 0 || y % 400 == 0)

/-- Length of a month, as `datetime` validates the day against. -/
def daysInMonth (y m : Nat) : Nat :=
  if m == 2 then (if leapYear y then 29 else 28)
  else if m == 4 || m == 6 || m == 9 || m == 11 then 30
  else 31

/-- `datetime.strptime(s, '%Y-%m-%d').date()`: four year digits, `-`,
month, `-`, day, nothing left over; then the `datetime` constructor
requires year ≥ 1 (MINYEAR) and a day that exists in that month.
Returns `none` exactly when the source raises `ValueError`. -/
def parseDate (s : String) : Option PDate :=
  match s.data with
  | c1 :: c2 :: c3 :: c4 :: '-' :: rest =>
      if c1.isDigit && c2.isDigit && c3.isDigit && c4.isDigit then
        let y := digitsToNat [c1, c2, c3, c4]
        match parseField2 1 12 rest with
        | some (m, '-' :: rest2) =>
            match parseField2 1 31 rest2 with
            | some (d, []) =>
                if 1 ≤ y && d ≤ daysInMonth y m then some ⟨y, m, d⟩ else none
            | _ => none
        | _ => none
      else none
  | _ => none

/-- The structured payload of a create intent
(`data` dict in `service_management.py`). -/
structure CreatePayload where
  client_name : Option String := none
  client_phone : Option String := none
  car_brand : Option String := none
  car_model : Option String := none
  car_color : Option String := none
  car_year : Option Int := none
  service_description : Option String := none
  service_date : Option String := none
  service_valor : Option Rat := none
  service_observations : Option String := none
deriving DecidableEq, Repr

/-- Result dict of `ServiceManagementService.create_service_record`. -/
structure CreateResult where
  success : Bool
  message : String
  client : Option Client := none
  car : Option Car := none
  record : Option ServiceRecord := none
  status_code : Option Nat := none
deriving DecidableEq, Repr

/-- Python `f"{x}"` of a nullable string (prints `None` for null). -/
def pyStrOpt : Option String → String
  | none => "None"
  | some s => s

/-- Python `f"{x}"` of a nullable integer. -/
def pyStrOptInt : Option Int → String
  | none => "None"
  | some i => toString i

/-- `ServiceManagementService.create_service_record`
(`service_management.py`): validate the three required fields by Python
truthiness, get-or-create client then car, parse the date falling back to
today, insert the record, commit (a no-op here) and return the entities
with the confirmation message. -/
def svcCreateServiceRecord (st : Store) (data : CreatePayload) :
    Store × CreateResult :=
  if falsyStr data.client_name || falsyStr data.car_model ||
      falsyStr data.service_description then
    (st, { success := false,
           message := "Por favor, forneça nome do cliente, modelo do carro e descrição do serviço.",
           status_code := some 400 })
  else
    let cn := data.client_name.getD ""
    let cm := data.car_model.getD ""
    let sd := data.service_description.getD ""
    let (client, st1) := getOrCreateClient st cn data.client_phone
    let (car, st2) := getOrCreateCar st1 client.id data.car_brand cm
      data.car_color data.car_year
    let date := (data.service_date.bind parseDate).getD st.today
    let (record, st3) := repoCreateServiceRecord st2 car.id sd date
      data.service_valor data.service_observations
    (st3, { success := true, client := some client, car := some car,
            record := some record,
            message := "Serviço registrado com sucesso para " ++ client.name
              ++ " - " ++ pyStrOpt car.brand ++ " " ++ car.model })

/-- The structured payload of a search intent. -/
structure SearchParams where
  client_name : Option String := none
  car_brand : Option String := none
  car_model : Option String := none
  service_description : Option String := none
deriving DecidableEq, Repr

/-- Python truthiness, positively. -/
def truthyStr (o : Option String) : Bool := !(falsyStr o)

/-- The `f"%{x}%"` substring pattern the search repository feeds `ilike`. -/
def subPat (x : String) : String := "%" ++ x ++ "%"

/-- The eager-loaded `record.car` relationship: the row of `cars` the
record's `car_id` references. -/
def findCar (st : Store) (r : ServiceRecord) : Option Car :=
  st.cars.find? (fun car => car.id == r.car_id)

/-- The `car.owner` relationship. -/
def findOwner (st : Store) (car : Car) : Option Client :=
  st.clients.find? (fun cl => cl.id == car.client_id)

/-- Row filter of `ServiceRecordRepository.search_service_records`: the
inner join to `Car` (and to `Client` only when a client name was given)
plus one `ILIKE '%…%'` conjunct per truthy parameter, and the `active`
filter when `active` is true. -/
def searchPred (st : Store) (p : SearchParams) (active : Bool)
    (r : ServiceRecord) : Bool :=
  match findCar st r with
  | none => false
  | some car =>
      (if truthyStr p.client_name then
         match findOwner st car with
         | none => false
         | some cl => ilikeStr cl.name (subPat (p.client_name.getD ""))
       else true) &&
      (if truthyStr p.car_brand then
         ilikeOpt car.brand (subPat (p.car_brand.getD "")) else true) &&
      (if truthyStr p.car_model then
         ilikeStr car.model (subPat (p.car_model.getD "")) else true) &&
      (if truthyStr p.service_description then
         ilikeStr r.servico (subPat (p.service_description.getD "")) else true) &&
      (if active then r.active else true)

/-- Insert a record into a list kept in descending `created_at` order. -/
def insertDesc (r : ServiceRecord) : List ServiceRecord → List ServiceRecord
  | [] => [r]
  | x :: xs =>
      if x.created_at ≤ r.created_at then r :: x :: xs
      else x :: insertDesc r xs

/-- `ORDER BY service_records.created_at DESC` (insertion sort). -/
def sortDesc : List ServiceRecord → List ServiceRecord
  | [] => []
  | x :: xs => insertDesc x (sortDesc xs)

/-- `ServiceRecordRepository.search_service_records`: filter and order;
read-only. -/
def repoSearchServiceRecords (st : Store) (p : SearchParams)
    (active : Bool) : List ServiceRecord :=
  sortDesc (st.records.filter (searchPred st p active))

/-- Result dict of `ServiceManagementService.search_service_records`. -/
structure SearchResult where
  success : Bool
  message : String
  records : List ServiceRecord := []
  status_code : Option Nat := none
deriving DecidableEq, Repr

/-- `ServiceManagementService.search_service_records`
(`service_management.py`): reject when every parameter is falsy, else
delegate to the repository with `active=True`; a non-empty result is a
success, an empty one is reported with `success=False` and
`status_code=200`. -/
def svcSearchServiceRecords (st : Store) (p : SearchParams) :
    Store × SearchResult :=
  if falsyStr p.client_name && falsyStr p.car_brand && falsyStr p.car_model
      && falsyStr p.service_description then
    (st, { success := false,
           message := "Por favor, forneça nome do cliente, marca, modelo do carro ou descrição do serviço para a pesquisa.",
           status_code := some 400 })
  else
    let rs := repoSearchServiceRecords st p true
    if rs.isEmpty then
      (st, { success := false,
             message := "Nenhum serviço encontrado com os critérios fornecidos.",
             status_code := some 200 })
    else
      (st, { success := true, message := "✅ Serviços encontrados:",
             records := rs })

/-- `"%02d"` rendering of a month/day, as `strftime('%m'/'%d')`. -/
def pad2 (n : Nat) : String :=
  if n < 10 then "0" ++ toString n else toString n

/-- `"%04d"` rendering of a year, as `strftime('%Y')`. -/
def pad4 (n : Nat) : String :=
  if n < 10 then "000" ++ toString n
  else if n < 100 then "00" ++ toString n
  else if n < 1000 then "0" ++ toString n
  else toString n

/-- `date.strftime('%Y-%m-%d')`. -/
def dateStr (d : PDate) : String :=
  pad4 d.year ++ "-" ++ pad2 d.month ++ "-" ++ pad2 d.day

/-- Rendering of `valor` in the detail messages
(`record.valor if record.valor is not None else 'Não informado'`); the
numeric rendering of the amount is embedded as the rational's `toString`. -/
def valorStr : Option Rat → String
  | none => "Não informado"
  | some v => toString v

/-- Rendering of `observations`
(`record.observations if record.observations else 'Nenhuma'`, a Python
truthiness test, so an empty string also shows as `Nenhuma`). -/
def obsStr (o : Option String) : String :=
  if falsyStr o then "Nenhuma" else o.getD ""

/-- Python `str.strip()`. -/
def stripStr (s : String) : String :=
  ⟨((s.data.dropWhile Char.isWhitespace).reverse.dropWhile
      Char.isWhitespace).reverse⟩

/-- The body shared by the two single-record detail messages in
`chat_service.py` (`Cliente`/`Veículo`/`Serviço`/`Data`/`Custo`/
`Observações` lines).  `record.date` is a non-nullable column, so the
`'Não informada'` fallback of the source never shows. -/
def detailBody (st : Store) (r : ServiceRecord) : String :=
  let car? := findCar st r
  let owner? := car?.bind (findOwner st)
  "    **Cliente:** " ++
    (match owner? with | some cl => cl.name | none => "Não informado") ++
  "\n    **Veículo:** " ++
    (match car? with | some car => pyStrOpt car.brand | none => "Não informado") ++
  " " ++ (match car? with | some car => car.model | none => "") ++
  " (" ++
    (match car? with | some car => pyStrOptInt car.year | none => "Não informado") ++
  ")\n    **Serviço:** " ++ r.servico ++
  "\n    **Data:** " ++ dateStr r.date ++
  "\n    **Custo:** R$ " ++ valorStr r.valor ++
  "\n    **Observações:** " ++ obsStr r.observations

/-- The single-record message of `_handle_search_service`. -/
def detailMsgFound (st : Store) (r : ServiceRecord) : String :=
  "✅ **Detalhes do Serviço Encontrado:**\n" ++ detailBody st r

/-- The success message of `_handle_create_service`.  (The source builds
it from a response-schema projection of the record; the entity accesses
are embedded directly.) -/
def detailMsgRegistered (st : Store) (r : ServiceRecord) : String :=
  "✅ **Detalhes do Serviço Registrado:**\n" ++ detailBody st r

/-- The `Carro:` field of a list entry:
`f"{record.car.brand or ''} {record.car.model or ''}".strip() or
"Carro Desconhecido"`.  (The `none` branch cannot arise for an
FK-consistent store.) -/
def carInfo : Option Car → String
  | some car =>
      let s := stripStr ((car.brand.getD "") ++ " " ++ car.model)
      if s == "" then "Carro Desconhecido" else s
  | none => "Carro Desconhecido"

/-- One entry of `_format_service_records_for_response`. -/
def formatEntry (st : Store) (r : ServiceRecord) : String :=
  let car? := findCar st r
  let clientName :=
    match car?.bind (findOwner st) with
    | some cl => cl.name
    | none => "Desconhecido"
  "**Cliente:** " ++ clientName ++
  "\n&emsp;**Carro:** " ++ carInfo car? ++
  "\n&emsp;**Serviço:** " ++ r.servico ++
  "\n&emsp;**Data:** " ++ dateStr r.date ++
  "\n───────────────────"

/-- Python `"\n".join(l)`. -/
def joinNL : List String → String
  | [] => ""
  | [s] => s
  | s :: rest => s ++ "\n" ++ joinNL rest

/-- `ChatService._format_service_records_for_response`: the entries in
order, joined with newlines (no numbering of any kind is emitted). -/
def formatServiceRecords (st : Store) (rs : List ServiceRecord) : String :=
  joinNL (rs.map (formatEntry st))

/-- The `ChatResponse` schema as the chat service fills it. -/
structure ChatResponse where
  success : Bool
  message : String
  service_records : List ServiceRecord := []
  service_data : Option ServiceRecord := none
deriving DecidableEq, Repr

/-- What a chat handler call produces: a response, or a raised
`HTTPException` with a status code and detail text. -/
inductive ChatOutcome where
  | ok (resp : ChatResponse)
  | httpError (status : Nat) (detail : String)
deriving DecidableEq, Repr

/-- Envelope the classifier hands to `ChatService.handle_intent`. -/
structure GeminiEnvelope where
  intent : String
  data : Option CreatePayload := none
  search_params : Option SearchParams := none

/-- `ChatService._handle_create_service`: 400 when `data` is falsy, else
delegate; a failed service result is re-raised with its status code, a
successful one is formatted into the registered-service detail message. -/
def handleCreateService (st : Store) (data : Option CreatePayload) :
    Store × ChatOutcome :=
  match data with
  | none => (st, .httpError 400 "Dados ausentes para criação de serviço.")
  | some d =>
      let (st1, res) := svcCreateServiceRecord st d
      if res.success then
        match res.record with
        | some r =>
            (st1, .ok { success := true,
                        message := detailMsgRegistered st1 r,
                        service_data := some r })
        | none => (st1, .httpError 500 "")
      else
        (st1, .httpError (res.status_code.getD 400) res.message)

/-- `ChatService._handle_list_active_services`: search with an empty
parameter dict; a failed service result becomes a `success=False`
response, an empty list the global-absence message, a non-empty list the
formatted listing. -/
def handleListActiveServices (st : Store) : Store × ChatOutcome :=
  let (_, sres) := svcSearchServiceRecords st {}
  if !sres.success then
    (st, .ok { success := false, message := sres.message })
  else
    match sres.records with
    | [] => (st, .ok { success := true,
                       message := "Nenhum serviço ativo encontrado." })
    | rs => (st, .ok { success := true,
                       message := "✅ **Serviços ativos:**\n" ++
                         formatServiceRecords st rs,
                       service_records := rs })

/-- `ChatService._handle_search_service`: falsy params fall through to the
listing handler; a failed service result is re-raised with its status
code; then the zero/one/many formatting policy. -/
def handleSearchService (st : Store) (params : Option SearchParams) :
    Store × ChatOutcome :=
  match params with
  | none => handleListActiveServices st
  | some p =>
      let (_, sres) := svcSearchServiceRecords st p
      if !sres.success then
        (st, .httpError (sres.status_code.getD 400) sres.message)
      else
        match sres.records with
        | [] => (st, .ok { success := true,
                           message := "Nenhum serviço ativo encontrado com os critérios fornecidos." })
        | [r] => (st, .ok { success := true,
                            message := detailMsgFound st r,
                            service_records := [r] })
        | rs => (st, .ok { success := true,
                           message := "Encontrei múltiplos serviços ativos. Por favor, especifique a qual você se refere\n"
                             ++ formatServiceRecords st rs,
                           service_records := rs })

/-- `ChatService.handle_intent`: dispatch on the intent label, with the
four create synonyms, the two search synonyms, the listing intent, and
the unknown-intent client error. -/
def handleIntent (st : Store) (env : GeminiEnvelope) : Store × ChatOutcome :=
  if env.intent == "record_service" || env.intent == "create_service" ||
      env.intent == "create_service_record" ||
      env.intent == "register_service" then
    handleCreateService st env.data
  else if env.intent == "search_service" || env.intent == "search" then
    handleSearchService st env.search_params
  else if env.intent == "list_active_services" then
    handleListActiveServices st
  else
    (st, .httpError 400 ("Intenção desconhecida: " ++ env.intent ++ "."))

/-- Well-formed store: id sequences dominate the stored ids, cars refer
to existing clients, and client/car ids are unique. -/
def StoreWF (st : Store) : Prop :=
  (∀ c ∈ st.clients, c.id < st.nextClientId) ∧
  (∀ car ∈ st.cars, car.id < st.nextCarId ∧
     ∃ cl ∈ st.clients, cl.id = car.client_id) ∧
  (∀ r ∈ st.records, r.id < st.nextRecordId) ∧
  (st.clients.map Client.id).Nodup ∧
  (st.cars.map Car.id).Nodup

instance (st : Store) : Decidable (StoreWF st) := by
  unfold StoreWF; infer_instance

/-- Case-insensitive substring search helper: does `needle` occur inside
`hay`? -/
def subChars (needle : List Char) : List Char → Bool
  | [] => needle.isEmpty
  | c :: t => needle.isPrefixOf (c :: t) || subChars needle t

/-- Case-insensitive substring containment — the specification's notion
of a "case-insensitive substring match", defined independently of
`likeMatch` so the two can be compared. -/
def strContainsCI (hay needle : String) : Bool :=
  subChars (needle.data.map Char.toLower) (hay.data.map Char.toLower)

/-- `sub` occurs as a contiguous substring of `hay`. -/
def ContainsStr (hay sub : String) : Prop :=
  ∃ a b : List Char, hay.data = a ++ sub.data ++ b

/-- Membership of a character, for reasoning about rendered messages. -/
def strHasChar (s : String) (c : Char) : Bool :=
  s.data.contains c

/-!  Concrete fixtures used to instantiate the theorems. -/

def exToday : PDate := ⟨2025, 6, 15⟩

def exClientMaria : Client := ⟨1, "Maria", none⟩

def exCar1 : Car := ⟨1, some "Honda", "Civic", some "Preto", some 2020, 1⟩

def exRecord1 : ServiceRecord :=
  ⟨1, 1, "troca de oleo", ⟨2024, 10, 25⟩, none, none, 0, true⟩

/-- An empty store. -/
def exStoreEmpty : Store := ⟨[], [], [], 1, 1, 1, 0, exToday⟩

/-- A store holding one client and nothing else. -/
def exStoreMaria : Store := ⟨[exClientMaria], [], [], 2, 1, 1, 0, exToday⟩

/-- A store holding one client, one car, one active record. -/
def exStoreFull : Store :=
  ⟨[exClientMaria], [exCar1], [exRecord1], 2, 2, 2, 1, exToday⟩

def exClientAna : Client := ⟨1, "Ana", none⟩

def exCarGol : Car := ⟨1, some "VW", "Gol", none, none, 1⟩

def exRecA : ServiceRecord :=
  ⟨1, 1, "troca de oleo", ⟨2033, 3, 3⟩, none, none, 0, true⟩

def exRecB : ServiceRecord :=
  ⟨2, 1, "pintura", ⟨2034, 4, 4⟩, none, none, 5, true⟩

/-- A store holding one client, one car and two active records, with no
digit `1` occurring in any rendered field. -/
def exStoreAna : Store :=
  ⟨[exClientAna], [exCarGol], [exRecA, exRecB], 2, 2, 3, 6, exToday⟩

/-- The disambiguation message the chat layer produces on `exStoreAna`
for a two-record search result. -/
def multiMsgAna : String :=
  "Encontrei múltiplos serviços ativos. Por favor, especifique a qual você se refere\n"
    ++ formatServiceRecords exStoreAna [exRecB, exRecA]

/-- A payload whose client name carries a `%` wildcard. -/
def payloadWild : CreatePayload :=
  { client_name := some "M%", car_model := some "Gol",
    service_description := some "lavagem" }

/-- The specification's sample create payload. -/
def payloadMaria : CreatePayload :=
  { client_name := some "Maria Santos", car_brand := some "Honda",
    car_model := some "Civic",
    service_description := some "Revisão dos 10.000 km",
    service_valor := some (450 : Rat) }

/-- A valid payload with a parseable date. -/
def payloadDateA : CreatePayload :=
  { client_name := some "João", car_model := some "Gol",
    service_description := some "alinhamento",
    service_date := some "2024-10-25" }

/-- A valid payload with an unparseable date. -/
def payloadDateB : CreatePayload :=
  { client_name := some "João", car_model := some "Gol",
    service_description := some "alinhamento",
    service_date := some "not-a-date" }

/-- A payload that differs from the rows of `exStoreFull` only by
letter case, with color and year left unspecified. -/
def payloadTwice : CreatePayload :=
  { client_name := some "MARIA", car_brand := some "honda",
    car_model := some "CIVIC", service_description := some "freios" }

/-!  Lemmas about the `ILIKE` embedding. -/

theorem likeMatch_percent_cons (ps s : List Char)
    (h : likeMatch ps s = true) : likeMatch ('%' :: ps) s = true := by
  rw [likeMatch]
  cases s with
  | nil => simpa [sufList] using h
  | cons c t =>
    simp [sufList]
    exact Or.inl h

theorem likeMatch_of_map_toLower : ∀ (p s : List Char),
    p.map Char.toLower = s.map Char.toLower → likeMatch p s = true := by
  intro p
  induction p with
  | nil =>
    intro s h
    cases s with
    | nil => rfl
    | cons d ds => simp at h
  | cons c ps ih =>
    intro s h
    cases s with
    | nil => simp at h
    | cons d ds =>
      simp only [List.map_cons, List.cons.injEq] at h
      obtain ⟨h1, h2⟩ := h
      by_cases hc : c = '%'
      · subst hc
        have hps := likeMatch_percent_cons ps ds (ih ds h2)
        rw [likeMatch]
        simp [sufList]
        right
        simpa [likeMatch] using hps
      · by_cases hu : c = '_'
        · subst hu
          rw [likeMatch]
          exact ih ds h2
        · rw [likeMatch]
          all_goals first
            | exact hc
            | exact hu
            | simp [h1, ih ds h2]

theorem likeMatch_self (p : List Char) : likeMatch p p = true :=
  likeMatch_of_map_toLower p p rfl

/-- A pattern without wildcards matches exactly the strings that equal it
case-insensitively. -/
theorem likeMatch_literal : ∀ (p : List Char),
    (∀ c ∈ p, c ≠ '%' ∧ c ≠ '_') →
    ∀ s, likeMatch p s = (p.map Char.toLower == s.map Char.toLower) := by
  intro p
  induction p with
  | nil =>
    intro _ s
    cases s <;> simp [likeMatch]
  | cons c ps ih =>
    intro hp s
    obtain ⟨hc, hu⟩ := hp c (by simp)
    have hps : ∀ d ∈ ps, d ≠ '%' ∧ d ≠ '_' := fun d hd => hp d (by simp [hd])
    cases s with
    | nil =>
      rw [likeMatch]
      all_goals first
        | exact hc
        | exact hu
        | simp
    | cons d ds =>
      rw [likeMatch]
      all_goals first
        | exact hc
        | exact hu
        | simp [ih hps ds, Bool.and_comm]

theorem eqci_eq_true_iff (a b : String) :
    eqci a b = true ↔ a.data.map Char.toLower = b.data.map Char.toLower := by
  unfold eqci
  exact beq_iff_eq

theorem ilikeStr_of_eqci (a b : String) (h : eqci a b = true) :
    ilikeStr a b = true := by
  unfold ilikeStr
  exact likeMatch_of_map_toLower _ _ ((eqci_eq_true_iff a b).mp h).symm

theorem ilikeStr_self (a : String) : ilikeStr a a = true :=
  likeMatch_self a.data

/-!  Lemmas about the repositories. -/

theorem exists_head?_filter {α} (p : α → Bool) (l : List α) (x : α)
    (hx : x ∈ l) (hpx : p x = true) :
    ∃ y, (l.filter p).head? = some y ∧ y ∈ l ∧ p y = true := by
  have hne : l.filter p ≠ [] := by
    intro h
    have := List.filter_eq_nil_iff.mp h x hx
    simp [hpx] at this
  cases hf : l.filter p with
  | nil => exact absurd hf hne
  | cons y ys =>
    have hy : y ∈ l.filter p := by simp [hf]
    exact ⟨y, by simp, (List.mem_filter.mp hy).1, (List.mem_filter.mp hy).2⟩

theorem getOrCreateClient_reuse (st : Store) (name : String)
    (phone : Option String) (c : Client)
    (h : (st.clients.filter (clientPred name phone)).head? = some c) :
    getOrCreateClient st name phone = (c, st) := by
  unfold getOrCreateClient
  rw [h]

theorem getOrCreateClient_create (st : Store) (name : String)
    (phone : Option String)
    (h : ∀ c ∈ st.clients, clientPred name phone c = false) :
    getOrCreateClient st name phone =
      (⟨st.nextClientId, name, phone⟩,
       { st with clients := st.clients ++ [⟨st.nextClientId, name, phone⟩],
                 nextClientId := st.nextClientId + 1 }) := by
  unfold getOrCreateClient
  have hf : st.clients.filter (clientPred name phone) = [] :=
    List.filter_eq_nil_iff.mpr (fun a ha => by simp [h a ha])
  rw [hf]
  rfl

theorem getOrCreateCar_reuse (st : Store) (cid : Nat)
    (brand : Option String) (model : String) (color : Option String)
    (year : Option Int) (car : Car)
    (h : (st.cars.filter (carPred cid brand model color year)).head? =
      some car) :
    getOrCreateCar st cid brand model color year = (car, st) := by
  unfold getOrCreateCar
  rw [h]

theorem getOrCreateCar_create (st : Store) (cid : Nat)
    (brand : Option String) (model : String) (color : Option String)
    (year : Option Int)
    (h : ∀ car ∈ st.cars, carPred cid brand model color year car = false) :
    getOrCreateCar st cid brand model color year =
      (⟨st.nextCarId, brand, model, color, year, cid⟩,
       { st with
           cars := st.cars ++ [⟨st.nextCarId, brand, model, color, year, cid⟩],
           nextCarId := st.nextCarId + 1 }) := by
  unfold getOrCreateCar
  have hf : st.cars.filter (carPred cid brand model color year) = [] :=
    List.filter_eq_nil_iff.mpr (fun a ha => by simp [h a ha])
  rw [hf]
  rfl

/-- A freshly created client row satisfies its own lookup predicate. -/
theorem clientPred_self (i : Nat) (name : String) (phone : Option String) :
    clientPred name phone ⟨i, name, phone⟩ = true := by
  unfold clientPred
  simp [ilikeStr_self]

/-- A freshly created car row satisfies its own lookup predicate. -/
theorem carPred_self (i : Nat) (cid : Nat) (brand : Option String)
    (model : String) (color : Option String) (year : Option Int) :
    carPred cid brand model color year ⟨i, brand, model, color, year, cid⟩ =
      true := by
  unfold carPred
  cases brand <;> cases color <;> cases year <;>
    simp [ilikeOpt, ilikeStr_self]

/-!  Lemmas about the search ordering. -/

theorem mem_insertDesc (r a : ServiceRecord) (l : List ServiceRecord) :
    a ∈ insertDesc r l ↔ a = r ∨ a ∈ l := by
  induction l with
  | nil => simp [insertDesc]
  | cons x xs ih =>
    rw [insertDesc]
    split
    · simp [List.mem_cons]
    · simp [List.mem_cons, ih]
      tauto

theorem mem_sortDesc (a : ServiceRecord) (l : List ServiceRecord) :
    a ∈ sortDesc l ↔ a ∈ l := by
  induction l with
  | nil => simp [sortDesc]
  | cons x xs ih => simp [sortDesc, mem_insertDesc, ih, List.mem_cons]

theorem pairwise_insertDesc (r : ServiceRecord) (l : List ServiceRecord)
    (h : l.Pairwise (fun a b => b.created_at ≤ a.created_at)) :
    (insertDesc r l).Pairwise (fun a b => b.created_at ≤ a.created_at) := by
  induction l with
  | nil => simp [insertDesc]
  | cons x xs ih =>
    rw [insertDesc]
    split
    · rename_i hle
      refine List.pairwise_cons.mpr ⟨?_, h⟩
      intro b hb
      rcases List.mem_cons.mp hb with rfl | hb'
      · exact hle
      · exact le_trans ((List.pairwise_cons.mp h).1 b hb') hle
    · rename_i hgt
      have h' := List.pairwise_cons.mp h
      refine List.pairwise_cons.mpr ⟨?_, ih h'.2⟩
      intro b hb
      rcases (mem_insertDesc r b xs).mp hb with rfl | hb'
      · exact le_of_not_le hgt
      · exact h'.1 b hb'

theorem pairwise_sortDesc (l : List ServiceRecord) :
    (sortDesc l).Pairwise (fun a b => b.created_at ≤ a.created_at) := by
  induction l with
  | nil => simp [sortDesc]
  | cons x xs ih => exact pairwise_insertDesc x (sortDesc xs) ih

/-- `find?` by a key that is unique in the list finds exactly the member
carrying that key. -/
theorem find?_key_eq_some_of_mem {α} (f : α → Nat) :
    ∀ (l : List α), (l.map f).Nodup → ∀ (x : α) (n : Nat), x ∈ l → f x = n →
      l.find? (fun y => f y == n) = some x := by
  intro l
  induction l with
  | nil => intro _ x n hx; cases hx
  | cons a as ih =>
    intro hn x n hx hfx
    by_cases ha : f a = n
    · have hxa : x = a := by
        rcases List.mem_cons.mp hx with rfl | hx'
        · rfl
        · exfalso
          have hhead : f a ∉ as.map f :=
            (List.nodup_cons.mp (by simpa using hn)).1
          exact hhead (by rw [ha, ← hfx]; exact List.mem_map_of_mem f hx')
      subst hxa
      rw [List.find?_cons_of_pos _ (by simp [ha])]
    · have hx' : x ∈ as := by
        rcases List.mem_cons.mp hx with rfl | hx'
        · exact absurd hfx ha
        · exact hx'
      have hn' : (as.map f).Nodup := (List.nodup_cons.mp (by simpa using hn)).2
      rw [List.find?_cons_of_neg _ (by simp [ha])]
      exact ih hn' x n hx' hfx

/-- For a valid payload, the create operation is the composition of the
three repository steps. -/
theorem svcCreate_valid (st : Store) (data : CreatePayload)
    (h1 : falsyStr data.client_name = false)
    (h2 : falsyStr data.car_model = false)
    (h3 : falsyStr data.service_description = false) :
    svcCreateServiceRecord st data =
      (let cpair := getOrCreateClient st (data.client_name.getD "")
         data.client_phone
       let carpair := getOrCreateCar cpair.2 cpair.1.id data.car_brand
         (data.car_model.getD "") data.car_color data.car_year
       let rpair := repoCreateServiceRecord carpair.2 carpair.1.id
         (data.service_description.getD "")
         ((data.service_date.bind parseDate).getD st.today)
         data.service_valor data.service_observations
       (rpair.2,
        { success := true, client := some cpair.1, car := some carpair.1,
          record := some rpair.1,
          message := "Serviço registrado com sucesso para " ++ cpair.1.name
            ++ " - " ++ pyStrOpt carpair.1.brand ++ " " ++ carpair.1.model })) := by
  unfold svcCreateServiceRecord
  rw [if_neg (by simp [h1, h2, h3])]

theorem getOrCreateClient_frame (st : Store) (n : String) (p : Option String) :
    (getOrCreateClient st n p).2.cars = st.cars ∧
    (getOrCreateClient st n p).2.records = st.records ∧
    (getOrCreateClient st n p).2.nextCarId = st.nextCarId ∧
    (getOrCreateClient st n p).2.today = st.today := by
  unfold getOrCreateClient
  split <;> exact ⟨rfl, rfl, rfl, rfl⟩

theorem getOrCreateCar_frame (st : Store) (cid : Nat) (b : Option String)
    (m : String) (col : Option String) (y : Option Int) :
    (getOrCreateCar st cid b m col y).2.clients = st.clients ∧
    (getOrCreateCar st cid b m col y).2.records = st.records ∧
    (getOrCreateCar st cid b m col y).2.today = st.today := by
  unfold getOrCreateCar
  split <;> exact ⟨rfl, rfl, rfl⟩

/-- Running the client lookup again on any store whose `clients` table is
the one the first run left behind finds the first run's client and
creates nothing. -/
theorem getOrCreateClient_stable (st st' : Store) (n : String)
    (p : Option String)
    (h : st'.clients = (getOrCreateClient st n p).2.clients) :
    getOrCreateClient st' n p = ((getOrCreateClient st n p).1, st') := by
  cases hh : (st.clients.filter (clientPred n p)).head? with
  | some c =>
    rw [getOrCreateClient_reuse st n p c hh] at h ⊢
    apply getOrCreateClient_reuse
    rw [h]
    exact hh
  | none =>
    have hnil : st.clients.filter (clientPred n p) = [] :=
      List.head?_eq_none_iff.mp hh
    have hfil : ∀ c ∈ st.clients, clientPred n p c = false := by
      intro c hc
      have := List.filter_eq_nil_iff.mp hnil c hc
      simpa using this
    rw [getOrCreateClient_create st n p hfil] at h ⊢
    apply getOrCreateClient_reuse
    rw [h, List.filter_append, hnil]
    simp [clientPred_self]

/-- Same stability for the car lookup. -/
theorem getOrCreateCar_stable (st st' : Store) (cid : Nat)
    (b : Option String) (m : String) (col : Option String) (y : Option Int)
    (h : st'.cars = (getOrCreateCar st cid b m col y).2.cars) :
    getOrCreateCar st' cid b m col y =
      ((getOrCreateCar st cid b m col y).1, st') := by
  cases hh : (st.cars.filter (carPred cid b m col y)).head? with
  | some car =>
    rw [getOrCreateCar_reuse st cid b m col y car hh] at h ⊢
    apply getOrCreateCar_reuse
    rw [h]
    exact hh
  | none =>
    have hnil : st.cars.filter (carPred cid b m col y) = [] :=
      List.head?_eq_none_iff.mp hh
    have hfil : ∀ car ∈ st.cars, carPred cid b m col y car = false := by
      intro car hc
      have := List.filter_eq_nil_iff.mp hnil car hc
      simpa using this
    rw [getOrCreateCar_create st cid b m col y hfil] at h ⊢
    apply getOrCreateCar_reuse
    rw [h, List.filter_append, hnil]
    simp [carPred_self]

/-- On a store with unique car and client ids, the row filter of the
search holds exactly when the record's car exists and every supplied
parameter matches under `ILIKE '%…%'`, the client join being required
only when a client name was supplied. -/
theorem searchPred_iff (st : Store) (p : SearchParams) (active : Bool)
    (r : ServiceRecord)
    (hnc : (st.cars.map Car.id).Nodup)
    (hncl : (st.clients.map Client.id).Nodup) :
    searchPred st p active r = true ↔
      ∃ car, car ∈ st.cars ∧ car.id = r.car_id ∧
        (truthyStr p.client_name = true →
          ∃ cl, cl ∈ st.clients ∧ cl.id = car.client_id ∧
            ilikeStr cl.name (subPat (p.client_name.getD "")) = true) ∧
        (truthyStr p.car_brand = true →
          ilikeOpt car.brand (subPat (p.car_brand.getD "")) = true) ∧
        (truthyStr p.car_model = true →
          ilikeStr car.model (subPat (p.car_model.getD "")) = true) ∧
        (truthyStr p.service_description = true →
          ilikeStr r.servico (subPat (p.service_description.getD "")) = true) ∧
        (active = true → r.active = true) := by
  unfold searchPred
  constructor
  · intro h
    cases hfc : findCar st r with
    | none =>
      rw [hfc] at h
      exact absurd h (by simp)
    | some car =>
      rw [hfc] at h
      simp only [Bool.and_eq_true] at h
      obtain ⟨⟨⟨⟨hA, hB⟩, hC⟩, hD⟩, hE⟩ := h
      have hcarmem := List.mem_of_find?_eq_some hfc
      have hcarid : car.id = r.car_id := by
        have := List.find?_some hfc
        simpa using this
      refine ⟨car, hcarmem, hcarid, ?_, ?_, ?_, ?_, ?_⟩
      · intro ht
        rw [if_pos ht] at hA
        cases hfo : findOwner st car with
        | none =>
          rw [hfo] at hA
          exact absurd hA (by simp)
        | some cl =>
          rw [hfo] at hA
          have hclmem := List.mem_of_find?_eq_some hfo
          have hclid : cl.id = car.client_id := by
            have := List.find?_some hfo
            simpa using this
          exact ⟨cl, hclmem, hclid, hA⟩
      · intro ht
        rw [if_pos ht] at hB
        exact hB
      · intro ht
        rw [if_pos ht] at hC
        exact hC
      · intro ht
        rw [if_pos ht] at hD
        exact hD
      · intro ht
        rw [if_pos ht] at hE
        exact hE
  · rintro ⟨car, hcarmem, hcarid, hcnc, hcb, hcmc, hsdc, hact⟩
    have hfc : findCar st r = some car :=
      find?_key_eq_some_of_mem Car.id st.cars hnc car r.car_id hcarmem hcarid
    rw [hfc]
    simp only [Bool.and_eq_true]
    refine ⟨⟨⟨⟨?_, ?_⟩, ?_⟩, ?_⟩, ?_⟩
    · by_cases ht : truthyStr p.client_name = true
      · obtain ⟨cl, hclmem, hclid, hil⟩ := hcnc ht
        have hfo : findOwner st car = some cl :=
          find?_key_eq_some_of_mem Client.id st.clients hncl cl
            car.client_id hclmem hclid
        rw [if_pos ht, hfo]
        exact hil
      · rw [if_neg ht]
    · by_cases ht : truthyStr p.car_brand = true
      · rw [if_pos ht]
        exact hcb ht
      · rw [if_neg ht]
    · by_cases ht : truthyStr p.car_model = true
      · rw [if_pos ht]
        exact hcmc ht
      · rw [if_neg ht]
    · by_cases ht : truthyStr p.service_description = true
      · rw [if_pos ht]
        exact hsdc ht
      · rw [if_neg ht]
    · by_cases ht : active = true
      · rw [if_pos ht]
        exact hact ht
      · rw [if_neg ht]

theorem containsStr_refl (s : String) : ContainsStr s s :=
  ⟨[], [], by simp⟩

theorem containsStr_appendl (b : String) {a t : String}
    (h : ContainsStr a t) : ContainsStr (a ++ b) t := by
  obtain ⟨x, y, hx⟩ := h
  exact ⟨x, y ++ b.data, by simp [hx]⟩

theorem containsStr_appendr (a : String) {b t : String}
    (h : ContainsStr b t) : ContainsStr (a ++ b) t := by
  obtain ⟨x, y, hx⟩ := h
  exact ⟨a.data ++ x, y, by simp [hx]⟩

theorem containsStr_trans {a s t : String} (h1 : ContainsStr a s)
    (h2 : ContainsStr s t) : ContainsStr a t := by
  obtain ⟨x, y, hx⟩ := h1
  obtain ⟨u, v, hu⟩ := h2
  exact ⟨x ++ u, v ++ y, by simp [hx, hu]⟩

theorem joinNL_cons2 (x y : String) (ys : List String) :
    joinNL (x :: y :: ys) = x ++ "\n" ++ joinNL (y :: ys) := rfl

theorem joinNL_contains (l : List String) (s : String) (h : s ∈ l) :
    ContainsStr (joinNL l) s := by
  induction l with
  | nil => cases h
  | cons x xs ih =>
    rcases List.mem_cons.mp h with rfl | h'
    · cases xs with
      | nil => exact containsStr_refl s
      | cons y ys =>
        rw [joinNL_cons2]
        exact containsStr_appendl _
          (containsStr_appendl _ (containsStr_refl s))
    · cases xs with
      | nil => cases h'
      | cons y ys =>
        rw [joinNL_cons2]
        exact containsStr_appendr _ (ih h')

theorem detailBody_contains_servico (st : Store) (r : ServiceRecord) :
    ContainsStr (detailBody st r) r.servico := by
  unfold detailBody
  repeat first
    | exact containsStr_appendr _ (containsStr_refl _)
    | apply containsStr_appendl

theorem detailBody_contains_date (st : Store) (r : ServiceRecord) :
    ContainsStr (detailBody st r) (dateStr r.date) := by
  unfold detailBody
  repeat first
    | exact containsStr_appendr _ (containsStr_refl _)
    | apply containsStr_appendl

theorem detailBody_contains_valor (st : Store) (r : ServiceRecord) :
    ContainsStr (detailBody st r) (valorStr r.valor) := by
  unfold detailBody
  repeat first
    | exact containsStr_appendr _ (containsStr_refl _)
    | apply containsStr_appendl

theorem detailBody_contains_obs (st : Store) (r : ServiceRecord) :
    ContainsStr (detailBody st r) (obsStr r.observations) := by
  unfold detailBody
  repeat first
    | exact containsStr_appendr _ (containsStr_refl _)
    | apply containsStr_appendl

theorem detailBody_contains_entities (st : Store) (r : ServiceRecord)
    (car : Car) (cl : Client) (hcar : findCar st r = some car)
    (hcl : findOwner st car = some cl) :
    ContainsStr (detailBody st r) cl.name ∧
    ContainsStr (detailBody st r) (pyStrOpt car.brand) ∧
    ContainsStr (detailBody st r) car.model := by
  unfold detailBody
  simp only [hcar, Option.some_bind, hcl]
  refine ⟨?_, ?_, ?_⟩ <;>
    repeat first
      | exact containsStr_appendr _ (containsStr_refl _)
      | apply containsStr_appendl

theorem formatEntry_contains_servico (st : Store) (r : ServiceRecord) :
    ContainsStr (formatEntry st r) r.servico := by
  unfold formatEntry
  repeat first
    | exact containsStr_appendr _ (containsStr_refl _)
    | apply containsStr_appendl

theorem formatEntry_contains_date (st : Store) (r : ServiceRecord) :
    ContainsStr (formatEntry st r) (dateStr r.date) := by
  unfold formatEntry
  repeat first
    | exact containsStr_appendr _ (containsStr_refl _)
    | apply containsStr_appendl

theorem formatEntry_contains_entities (st : Store) (r : ServiceRecord)
    (car : Car) (cl : Client) (hcar : findCar st r = some car)
    (hcl : findOwner st car = some cl) :
    ContainsStr (formatEntry st r) cl.name ∧
    ContainsStr (formatEntry st r) (carInfo (some car)) := by
  unfold formatEntry
  simp only [hcar, Option.some_bind, hcl]
  refine ⟨?_, ?_⟩ <;>
    repeat first
      | exact containsStr_appendr _ (containsStr_refl _)
      | apply containsStr_appendl

/-- For a non-empty result and at least one truthy parameter, the search
service returns success with the found message and the records. -/
theorem svcSearch_found (st : Store) (p : SearchParams)
    (rs : List ServiceRecord)
    (hp : (falsyStr p.client_name && falsyStr p.car_brand &&
      falsyStr p.car_model && falsyStr p.service_description) = false)
    (hr : repoSearchServiceRecords st p true = rs) (hne : rs ≠ []) :
    svcSearchServiceRecords st p =
      (st, { success := true, message := "✅ Serviços encontrados:",
             records := rs }) := by
  unfold svcSearchServiceRecords
  rw [if_neg (by simp [hp])]
  dsimp only
  rw [hr, if_neg (by simp [hne])]

/-!  Claim theorems. -/

/-- C3: a create payload whose client name, car model or service
description is missing or empty is rejected with `success=False`, the
guidance message and status 400, and the store is returned unchanged —
validation short-circuits before any repository call. -/
theorem createValidationShortCircuit (st : Store) (data : CreatePayload)
    (h : falsyStr data.client_name = true ∨ falsyStr data.car_model = true ∨
      falsyStr data.service_description = true) :
    svcCreateServiceRecord st data =
      (st,
       { success := false,
         message := "Por favor, forneça nome do cliente, modelo do carro e descrição do serviço.",
         status_code := some 400 }) := by
  have hc : (falsyStr data.client_name || falsyStr data.car_model ||
      falsyStr data.service_description) = true := by
    rcases h with h | h | h <;> simp [h]
  unfold svcCreateServiceRecord
  rw [if_pos (by simp [hc])]

/-- Witness for C3 at the empty payload on the empty store. -/
theorem createValidationShortCircuit_witness :
    falsyStr ({} : CreatePayload).client_name = true ∧
    svcCreateServiceRecord exStoreEmpty {} =
      (exStoreEmpty,
       { success := false,
         message := "Por favor, forneça nome do cliente, modelo do carro e descrição do serviço.",
         status_code := some 400 }) :=
  ⟨rfl, createValidationShortCircuit exStoreEmpty {} (Or.inl rfl)⟩

/-- C10: the get-or-create lookups feed raw input to `ILIKE`, so `%` and
`_` act as wildcards: the name `"M%"` reuses the stored client `"Maria"`
(whose name differs from the input, even case-insensitively) instead of
creating a row, and wildcarded model/brand/color inputs likewise reuse
the stored car `"Honda Civic Preto"`. -/
theorem wildcardPatternReuse :
    (getOrCreateClient exStoreMaria "M%" none).1 = exClientMaria ∧
    (getOrCreateClient exStoreMaria "M%" none).2 = exStoreMaria ∧
    exClientMaria.name ≠ "M%" ∧
    eqci exClientMaria.name "M%" = false ∧
    (getOrCreateCar exStoreFull 1 (some "H%") "C_vic" (some "P_eto") none).1
      = exCar1 ∧
    (getOrCreateCar exStoreFull 1 (some "H%") "C_vic" (some "P_eto") none).2
      = exStoreFull ∧
    exCar1.model ≠ "C_vic" ∧
    exCar1.brand ≠ some "H%" ∧
    exCar1.color ≠ some "P_eto" :=
  ⟨rfl, rfl, by decide, by decide, rfl, rfl, by decide, by decide, by decide⟩

/-- C4 (code bug): a constrained search matching zero records does not
produce a `success=True` "nothing found" response: the service reports
`success=False` (with status 200) and the chat handler turns that into a
raised HTTP error, never reaching its empty-list success branch. -/
theorem searchZeroMatchesFailure :
    repoSearchServiceRecords exStoreFull { client_name := some "zzz" } true
      = [] ∧
    svcSearchServiceRecords exStoreFull { client_name := some "zzz" } =
      (exStoreFull,
       { success := false,
         message := "Nenhum serviço encontrado com os critérios fornecidos.",
         status_code := some 200 }) ∧
    (handleSearchService exStoreFull (some { client_name := some "zzz" })).2
      = ChatOutcome.httpError 200
          "Nenhum serviço encontrado com os critérios fornecidos." :=
  ⟨rfl, rfl, rfl⟩

/-- C5 (code bug): the listing intent delegates to the search service
with an empty parameter dict, which the service rejects as an
empty-criteria search, so `list_active_services` always yields a
`success=False` guidance response — here even though one active record
exists and the unconstrained `active=true` repository search returns
it. -/
theorem listActiveAlwaysRejected :
    repoSearchServiceRecords exStoreFull {} true = [exRecord1] ∧
    handleIntent exStoreFull { intent := "list_active_services" } =
      (exStoreFull,
       ChatOutcome.ok
         { success := false,
           message := "Por favor, forneça nome do cliente, marca, modelo do carro ou descrição do serviço para a pesquisa." }) :=
  ⟨rfl, rfl⟩

/-- C1 counterexample: for the payload with client name `"M%"` no stored
client matches case-insensitively, yet the create operation reuses the
stored client `"Maria"` (the `%` acts as a wildcard) and creates zero
new Client rows rather than exactly one. -/
theorem createNewClient_counterexample :
    exStoreMaria.clients.all (fun c => !(eqci c.name "M%")) = true ∧
    (svcCreateServiceRecord exStoreMaria payloadWild).2.success = true ∧
    (svcCreateServiceRecord exStoreMaria payloadWild).1.clients =
      exStoreMaria.clients :=
  ⟨by decide, rfl, rfl⟩

/-- C1 (amended): for a valid payload whose client name contains no
`%`/`_` wildcard and matches no stored client case-insensitively, the
create operation (on a well-formed store) creates exactly one Client,
one Car and one ServiceRecord, with `car.client_id = client.id` and
`record.car_id = car.id`, and returns success with the confirmation
message naming the client, the car brand and the model.  (The claim as
stated, with the hypothesis "no existing Client matches the name
case-insensitively", fails for wildcarded names — see the
counterexample.) -/
theorem createNewClient (st : Store) (data : CreatePayload)
    (cn cm sd : String) (hwf : StoreWF st)
    (hcn : data.client_name = some cn) (hcne : cn ≠ "")
    (hcm : data.car_model = some cm) (hcme : cm ≠ "")
    (hsd : data.service_description = some sd) (hsde : sd ≠ "")
    (hnw : ∀ c ∈ cn.data, c ≠ '%' ∧ c ≠ '_')
    (hnomatch : ∀ c ∈ st.clients, eqci c.name cn = false) :
    ∃ client car record,
      (svcCreateServiceRecord st data).2.success = true ∧
      (svcCreateServiceRecord st data).2.client = some client ∧
      (svcCreateServiceRecord st data).2.car = some car ∧
      (svcCreateServiceRecord st data).2.record = some record ∧
      (svcCreateServiceRecord st data).1.clients = st.clients ++ [client] ∧
      (svcCreateServiceRecord st data).1.cars = st.cars ++ [car] ∧
      (svcCreateServiceRecord st data).1.records = st.records ++ [record] ∧
      car.client_id = client.id ∧
      record.car_id = car.id ∧
      client.name = cn ∧ car.model = cm ∧ record.servico = sd ∧
      (svcCreateServiceRecord st data).2.message =
        "Serviço registrado com sucesso para " ++ cn ++ " - "
          ++ pyStrOpt data.car_brand ++ " " ++ cm := by
  have h1 : falsyStr data.client_name = false := by
    rw [hcn]
    simpa [falsyStr] using hcne
  have h2 : falsyStr data.car_model = false := by
    rw [hcm]
    simpa [falsyStr] using hcme
  have h3 : falsyStr data.service_description = false := by
    rw [hsd]
    simpa [falsyStr] using hsde
  have hgd1 : data.client_name.getD "" = cn := by rw [hcn]; rfl
  have hgd2 : data.car_model.getD "" = cm := by rw [hcm]; rfl
  have hgd3 : data.service_description.getD "" = sd := by rw [hsd]; rfl
  have hcfil : ∀ c ∈ st.clients, clientPred cn data.client_phone c = false := by
    intro c hc
    have hne : ilikeStr c.name cn = false := by
      unfold ilikeStr
      rw [likeMatch_literal cn.data hnw c.name.data]
      have h := hnomatch c hc
      unfold eqci at h
      simp only [beq_eq_false_iff_ne] at h ⊢
      exact fun e => h e.symm
    unfold clientPred
    simp [hne]
  have hcarfil : ∀ car ∈ st.cars,
      carPred st.nextClientId data.car_brand cm data.car_color
        data.car_year car = false := by
    intro car hcar
    obtain ⟨-, cl, hclmem, hcleq⟩ := hwf.2.1 car hcar
    have hlt := hwf.1 cl hclmem
    have hne : (car.client_id == st.nextClientId) = false := by
      rw [← hcleq]
      simp
      omega
    unfold carPred
    simp [hne]
  rw [svcCreate_valid st data h1 h2 h3]
  simp only [hgd1, hgd2, hgd3]
  rw [getOrCreateClient_create st cn data.client_phone hcfil]
  dsimp only
  rw [getOrCreateCar_create
    { st with
        clients := st.clients ++ [⟨st.nextClientId, cn, data.client_phone⟩],
        nextClientId := st.nextClientId + 1 }
    st.nextClientId data.car_brand cm data.car_color data.car_year hcarfil]
  dsimp only
  unfold repoCreateServiceRecord
  dsimp only
  refine ⟨⟨st.nextClientId, cn, data.client_phone⟩,
    ⟨st.nextCarId, data.car_brand, cm, data.car_color, data.car_year,
      st.nextClientId⟩, _,
    trivial, rfl, rfl, rfl, rfl, rfl, rfl, rfl, rfl, rfl, rfl, rfl, rfl⟩

/-- Witness for C1. -/
theorem createNewClient_witness :
    StoreWF exStoreEmpty ∧ ("Maria Santos" : String) ≠ "" ∧
    (∃ client car record,
      (svcCreateServiceRecord exStoreEmpty payloadMaria).2.success = true ∧
      (svcCreateServiceRecord exStoreEmpty payloadMaria).2.client =
        some client ∧
      (svcCreateServiceRecord exStoreEmpty payloadMaria).2.car = some car ∧
      (svcCreateServiceRecord exStoreEmpty payloadMaria).2.record =
        some record ∧
      (svcCreateServiceRecord exStoreEmpty payloadMaria).1.clients =
        exStoreEmpty.clients ++ [client] ∧
      (svcCreateServiceRecord exStoreEmpty payloadMaria).1.cars =
        exStoreEmpty.cars ++ [car] ∧
      (svcCreateServiceRecord exStoreEmpty payloadMaria).1.records =
        exStoreEmpty.records ++ [record] ∧
      car.client_id = client.id ∧
      record.car_id = car.id ∧
      client.name = "Maria Santos" ∧ car.model = "Civic" ∧
      record.servico = "Revisão dos 10.000 km" ∧
      (svcCreateServiceRecord exStoreEmpty payloadMaria).2.message =
        "Serviço registrado com sucesso para " ++ "Maria Santos" ++ " - "
          ++ pyStrOpt payloadMaria.car_brand ++ " " ++ "Civic") :=
  ⟨by decide, by decide,
   createNewClient exStoreEmpty payloadMaria "Maria Santos" "Civic"
     "Revisão dos 10.000 km" (by decide) rfl (by decide) rfl (by decide)
     rfl (by decide) (by decide) (by decide)⟩

/-- C7: for an otherwise-valid create payload, a `service_date` string
that parses as `YYYY-MM-DD` is persisted verbatim on the new
ServiceRecord, while an absent or unparseable `service_date` makes the
record carry the current date — and the operation succeeds either
way. -/
theorem createDateFallback (st : Store) (data : CreatePayload)
    (h1 : falsyStr data.client_name = false)
    (h2 : falsyStr data.car_model = false)
    (h3 : falsyStr data.service_description = false) :
    (svcCreateServiceRecord st data).2.success = true ∧
    (∀ s d, data.service_date = some s → parseDate s = some d →
      ∃ r, (svcCreateServiceRecord st data).2.record = some r ∧
        (svcCreateServiceRecord st data).1.records.getLast? = some r ∧
        r.date = d) ∧
    (data.service_date.bind parseDate = none →
      ∃ r, (svcCreateServiceRecord st data).2.record = some r ∧
        (svcCreateServiceRecord st data).1.records.getLast? = some r ∧
        r.date = st.today) := by
  rw [svcCreate_valid st data h1 h2 h3]
  dsimp only
  refine ⟨rfl, ?_, ?_⟩
  · intro s d hs hd
    refine ⟨_, rfl, ?_, ?_⟩
    · unfold repoCreateServiceRecord
      dsimp only
      exact List.getLast?_concat _
    · simp [hs, hd, repoCreateServiceRecord]
  · intro h
    refine ⟨_, rfl, ?_, ?_⟩
    · unfold repoCreateServiceRecord
      dsimp only
      exact List.getLast?_concat _
    · simp [h, repoCreateServiceRecord]

/-- Witness for C7, at the specification's two sample dates
`"2024-10-25"` and `"not-a-date"`. -/
theorem createDateFallback_witness :
    falsyStr payloadDateA.client_name = false ∧
    parseDate "2024-10-25" = some ⟨2024, 10, 25⟩ ∧
    (∃ r, (svcCreateServiceRecord exStoreEmpty payloadDateA).2.record =
        some r ∧
      (svcCreateServiceRecord exStoreEmpty payloadDateA).1.records.getLast? =
        some r ∧
      r.date = ⟨2024, 10, 25⟩) ∧
    parseDate "not-a-date" = none ∧
    (∃ r, (svcCreateServiceRecord exStoreEmpty payloadDateB).2.record =
        some r ∧
      (svcCreateServiceRecord exStoreEmpty payloadDateB).1.records.getLast? =
        some r ∧
      r.date = exStoreEmpty.today) :=
  ⟨rfl, by decide, (createDateFallback exStoreEmpty payloadDateA rfl rfl
      rfl).2.1 "2024-10-25" ⟨2024, 10, 25⟩ rfl (by decide),
   by decide, (createDateFallback exStoreEmpty payloadDateB rfl rfl
      rfl).2.2 (by decide)⟩

/-- C9: `handle_intent` dispatches each of the four create synonyms to
the create handler, the two search synonyms to the search handler, and
`list_active_services` to the listing handler; any other label yields an
HTTP 400 client error citing the unrecognized label, with the store
unchanged. -/
theorem handleIntentDispatch (st : Store) (env : GeminiEnvelope) :
    ((env.intent = "record_service" ∨ env.intent = "create_service" ∨
      env.intent = "create_service_record" ∨
      env.intent = "register_service") →
      handleIntent st env = handleCreateService st env.data) ∧
    ((env.intent = "search_service" ∨ env.intent = "search") →
      handleIntent st env = handleSearchService st env.search_params) ∧
    (env.intent = "list_active_services" →
      handleIntent st env = handleListActiveServices st) ∧
    ((env.intent ≠ "record_service" ∧ env.intent ≠ "create_service" ∧
      env.intent ≠ "create_service_record" ∧
      env.intent ≠ "register_service" ∧ env.intent ≠ "search_service" ∧
      env.intent ≠ "search" ∧ env.intent ≠ "list_active_services") →
      handleIntent st env =
        (st, ChatOutcome.httpError 400
          ("Intenção desconhecida: " ++ env.intent ++ "."))) := by
  unfold handleIntent
  refine ⟨?_, ?_, ?_, ?_⟩
  · rintro (h | h | h | h) <;> simp [h]
  · rintro (h | h) <;> simp [h]
  · intro h
    simp [h]
  · rintro ⟨n1, n2, n3, n4, n5, n6, n7⟩
    simp [n1, n2, n3, n4, n5, n6, n7]

/-- Witness for C9 at the labels `"record_service"` and `"xyz"`. -/
theorem handleIntentDispatch_witness :
    (handleIntent exStoreEmpty { intent := "record_service" } =
      handleCreateService exStoreEmpty none) ∧
    (handleIntent exStoreEmpty { intent := "xyz" } =
      (exStoreEmpty,
       ChatOutcome.httpError 400
         ("Intenção desconhecida: " ++ "xyz" ++ "."))) :=
  ⟨(handleIntentDispatch exStoreEmpty { intent := "record_service" }).1
     (Or.inl rfl),
   (handleIntentDispatch exStoreEmpty { intent := "xyz" }).2.2.2
     (by refine ⟨?_, ?_, ?_, ?_, ?_, ?_, ?_⟩ <;> decide)⟩

/-- C2: (a) a create payload whose client name matches a stored client
case-insensitively (and whose phone, when truthy, matches exactly)
creates no new Client row; (b) a car of the resolved client matching
case-insensitively on the model and on every supplied one of
brand/color/year (unsupplied fields are not filters) is reused, creating
no new Car row; (c) running the same valid payload twice adds exactly
two ServiceRecord rows, and the second run adds no Client and no Car. -/
theorem getOrCreateReuseIdempotent (st : Store) (data : CreatePayload)
    (cn cm sd : String)
    (hcn : data.client_name = some cn) (hcne : cn ≠ "")
    (hcm : data.car_model = some cm) (hcme : cm ≠ "")
    (hsd : data.service_description = some sd) (hsde : sd ≠ "") :
    ((∃ c ∈ st.clients, eqci c.name cn = true ∧
        (truthyStr data.client_phone = true →
          c.phone = data.client_phone)) →
      (svcCreateServiceRecord st data).1.clients = st.clients) ∧
    ((∃ car ∈ st.cars,
        car.client_id = (getOrCreateClient st cn data.client_phone).1.id ∧
        eqci car.model cm = true ∧
        (∀ b, data.car_brand = some b →
          ∃ cb, car.brand = some cb ∧ eqci cb b = true) ∧
        (∀ col, data.car_color = some col →
          ∃ cc, car.color = some cc ∧ eqci cc col = true) ∧
        (∀ y, data.car_year = some y → car.year = some y)) →
      (svcCreateServiceRecord st data).1.cars = st.cars) ∧
    ((svcCreateServiceRecord
        (svcCreateServiceRecord st data).1 data).1.records.length
      = st.records.length + 2 ∧
     (svcCreateServiceRecord
        (svcCreateServiceRecord st data).1 data).1.clients
      = (svcCreateServiceRecord st data).1.clients ∧
     (svcCreateServiceRecord
        (svcCreateServiceRecord st data).1 data).1.cars
      = (svcCreateServiceRecord st data).1.cars) := by
  have h1 : falsyStr data.client_name = false := by
    rw [hcn]
    simpa [falsyStr] using hcne
  have h2 : falsyStr data.car_model = false := by
    rw [hcm]
    simpa [falsyStr] using hcme
  have h3 : falsyStr data.service_description = false := by
    rw [hsd]
    simpa [falsyStr] using hsde
  have hgd1 : data.client_name.getD "" = cn := by rw [hcn]; rfl
  have hgd2 : data.car_model.getD "" = cm := by rw [hcm]; rfl
  have hgd3 : data.service_description.getD "" = sd := by rw [hsd]; rfl
  have hmain := svcCreate_valid st data h1 h2 h3
  rw [hgd1, hgd2, hgd3] at hmain
  have hclients3 : (svcCreateServiceRecord st data).1.clients =
      (getOrCreateClient st cn data.client_phone).2.clients := by
    rw [hmain]
    dsimp only
    unfold repoCreateServiceRecord
    dsimp only
    exact (getOrCreateCar_frame _ _ _ _ _ _).1
  have hcars3 : (svcCreateServiceRecord st data).1.cars =
      (getOrCreateCar (getOrCreateClient st cn data.client_phone).2
        (getOrCreateClient st cn data.client_phone).1.id data.car_brand cm
        data.car_color data.car_year).2.cars := by
    rw [hmain]
    dsimp only
    unfold repoCreateServiceRecord
    dsimp only
  have hrecords3 : (svcCreateServiceRecord st data).1.records.length =
      st.records.length + 1 := by
    rw [hmain]
    dsimp only
    unfold repoCreateServiceRecord
    dsimp only
    rw [(getOrCreateCar_frame _ _ _ _ _ _).2.1,
      (getOrCreateClient_frame _ _ _).2.1]
    simp
  refine ⟨?_, ?_, ?_⟩
  · rintro ⟨c, hcmem, hceq, hcph⟩
    have hpred : clientPred cn data.client_phone c = true := by
      unfold clientPred
      have hil : ilikeStr c.name cn = true := ilikeStr_of_eqci _ _ hceq
      cases hph : falsyStr data.client_phone with
      | true => simp [hil, hph]
      | false =>
        have hcp := hcph (by simp [truthyStr, hph])
        simp [hil, hph, hcp]
    obtain ⟨y, hy, -, -⟩ :=
      exists_head?_filter (clientPred cn data.client_phone) st.clients c
        hcmem hpred
    rw [hmain]
    dsimp only
    rw [getOrCreateClient_reuse st cn data.client_phone y hy]
    dsimp only
    unfold repoCreateServiceRecord
    dsimp only
    exact (getOrCreateCar_frame _ _ _ _ _ _).1
  · rintro ⟨car, hcarmem, hcid, hcmeq, hbr, hcol, hyr⟩
    have hpred : carPred (getOrCreateClient st cn data.client_phone).1.id
        data.car_brand cm data.car_color data.car_year car = true := by
      unfold carPred
      have hmil : ilikeStr car.model cm = true := ilikeStr_of_eqci _ _ hcmeq
      have hb : (match data.car_brand with
          | none => true
          | some b => ilikeOpt car.brand b) = true := by
        cases hbb : data.car_brand with
        | none => rfl
        | some b =>
          obtain ⟨cb, hcb, hcbe⟩ := hbr b hbb
          simp [ilikeOpt, hcb, ilikeStr_of_eqci _ _ hcbe]
      have hco : (match data.car_color with
          | none => true
          | some col => ilikeOpt car.color col) = true := by
        cases hcc : data.car_color with
        | none => rfl
        | some col =>
          obtain ⟨cc, hccx, hcce⟩ := hcol col hcc
          simp [ilikeOpt, hccx, ilikeStr_of_eqci _ _ hcce]
      have hyy : (match data.car_year with
          | none => true
          | some y => car.year == some y) = true := by
        cases hyc : data.car_year with
        | none => rfl
        | some y => simp [hyr y hyc]
      simp [hcid, hmil, hb, hco, hyy]
    have hcarmem' : car ∈ (getOrCreateClient st cn data.client_phone).2.cars := by
      rw [(getOrCreateClient_frame _ _ _).1]
      exact hcarmem
    obtain ⟨y, hy, -, -⟩ :=
      exists_head?_filter _ _ car hcarmem' hpred
    rw [hmain]
    dsimp only
    rw [getOrCreateCar_reuse _ _ _ _ _ _ y hy]
    dsimp only
    unfold repoCreateServiceRecord
    dsimp only
    exact (getOrCreateClient_frame _ _ _).1
  · have hmain2 := svcCreate_valid (svcCreateServiceRecord st data).1 data
      h1 h2 h3
    rw [hgd1, hgd2, hgd3] at hmain2
    have hstable1 := getOrCreateClient_stable st
      (svcCreateServiceRecord st data).1 cn data.client_phone hclients3
    have hstable2 := getOrCreateCar_stable
      (getOrCreateClient st cn data.client_phone).2
      (svcCreateServiceRecord st data).1
      (getOrCreateClient st cn data.client_phone).1.id data.car_brand cm
      data.car_color data.car_year hcars3
    rw [hmain2]
    dsimp only
    rw [hstable1]
    dsimp only
    rw [hstable2]
    dsimp only
    unfold repoCreateServiceRecord
    dsimp only
    refine ⟨?_, rfl, rfl⟩
    simp [hrecords3]

/-- Witness for C2: `exStoreFull` already holds client `"Maria"` and car
`"Honda Civic"`; the payload differs only by letter case and leaves
color/year unspecified. -/
theorem getOrCreateReuseIdempotent_witness :
    eqci exClientMaria.name "MARIA" = true ∧
    eqci exCar1.model "CIVIC" = true ∧
    (svcCreateServiceRecord exStoreFull payloadTwice).1.clients =
      exStoreFull.clients ∧
    (svcCreateServiceRecord exStoreFull payloadTwice).1.cars =
      exStoreFull.cars ∧
    (svcCreateServiceRecord
        (svcCreateServiceRecord exStoreFull payloadTwice).1
        payloadTwice).1.records.length
      = exStoreFull.records.length + 2 ∧
    (svcCreateServiceRecord
        (svcCreateServiceRecord exStoreFull payloadTwice).1
        payloadTwice).1.clients
      = (svcCreateServiceRecord exStoreFull payloadTwice).1.clients ∧
    (svcCreateServiceRecord
        (svcCreateServiceRecord exStoreFull payloadTwice).1
        payloadTwice).1.cars
      = (svcCreateServiceRecord exStoreFull payloadTwice).1.cars := by
  have T := getOrCreateReuseIdempotent exStoreFull payloadTwice "MARIA"
    "CIVIC" "freios" rfl (by decide) rfl (by decide) rfl (by decide)
  refine ⟨by decide, by decide,
    T.1 ⟨exClientMaria, by decide, by decide, by decide⟩,
    T.2.1 ⟨exCar1, by decide, by decide, by decide, ?_, ?_, ?_⟩,
    T.2.2.1, T.2.2.2.1, T.2.2.2.2⟩
  · intro b hb
    have hb' : some "honda" = some b := hb
    injection hb' with h
    subst h
    exact ⟨"Honda", rfl, by decide⟩
  · intro col hcol
    simp [payloadTwice] at hcol
  · intro y hy
    simp [payloadTwice] at hy

/-- C6 (amended): on a well-formed store, `search_service_records`
returns exactly the records whose joined car (and, when a client name is
supplied, its owning client) matches every supplied parameter under a
case-insensitive `LIKE '%…%'` pattern match — which coincides with
substring matching when the parameter has no `%`/`_` wildcard — filtered
to active records when `active` is true, ordered by `created_at`
descending, and without mutating the store.  (The claim's
"case-insensitive substring match" fails for parameters containing
wildcards — see the counterexample.) -/
theorem searchCharacterization (st : Store) (p : SearchParams)
    (active : Bool) (hwf : StoreWF st) :
    (∀ r, r ∈ repoSearchServiceRecords st p active ↔
      (r ∈ st.records ∧ ∃ car, car ∈ st.cars ∧ car.id = r.car_id ∧
        (truthyStr p.client_name = true →
          ∃ cl, cl ∈ st.clients ∧ cl.id = car.client_id ∧
            ilikeStr cl.name (subPat (p.client_name.getD "")) = true) ∧
        (truthyStr p.car_brand = true →
          ilikeOpt car.brand (subPat (p.car_brand.getD "")) = true) ∧
        (truthyStr p.car_model = true →
          ilikeStr car.model (subPat (p.car_model.getD "")) = true) ∧
        (truthyStr p.service_description = true →
          ilikeStr r.servico (subPat (p.service_description.getD "")) = true) ∧
        (active = true → r.active = true))) ∧
    (repoSearchServiceRecords st p active).Pairwise
      (fun a b => b.created_at ≤ a.created_at) ∧
    (svcSearchServiceRecords st p).1 = st := by
  refine ⟨?_, ?_, ?_⟩
  · intro r
    unfold repoSearchServiceRecords
    rw [mem_sortDesc, List.mem_filter]
    exact and_congr_right
      (fun _ => searchPred_iff st p active r hwf.2.2.2.2 hwf.2.2.2.1)
  · exact pairwise_sortDesc _
  · unfold svcSearchServiceRecords
    split
    · rfl
    · dsimp only
      split <;> rfl

/-- C6 counterexample: the search parameter `"tro_a"` (an `_` wildcard)
returns the record whose service is `"troca de oleo"`, although
`"tro_a"` is not a case-insensitive substring of that field, refuting
the claim's substring reading on wildcarded inputs. -/
theorem searchCharacterization_counterexample :
    repoSearchServiceRecords exStoreFull
      { service_description := some "tro_a" } true = [exRecord1] ∧
    exRecord1.servico = "troca de oleo" ∧
    strContainsCI "troca de oleo" "tro_a" = false := by
  refine ⟨rfl, rfl, by decide⟩

/-- Witness for C6. -/
theorem searchCharacterization_witness :
    StoreWF exStoreFull ∧
    (svcSearchServiceRecords exStoreFull { car_model := some "civ" }).1 =
      exStoreFull ∧
    (repoSearchServiceRecords exStoreFull { car_model := some "civ" }
        true).Pairwise (fun a b => b.created_at ≤ a.created_at) :=
  ⟨by decide,
   (searchCharacterization exStoreFull { car_model := some "civ" } true
     (by decide)).2.2,
   (searchCharacterization exStoreFull { car_model := some "civ" } true
     (by decide)).2.1⟩


/-- C8 (amended): a search matching exactly one record yields
success=true, a one-record list, and a detail message containing the
record's client name, car brand, model, service, date, cost and
observations; a search matching two or more records yields success=true,
the disambiguation message enumerating every match in result order (each
entry showing client, car, service and date — but carrying no numeric
index), and the full record list.  (The claim's "1-indexed" enumeration
fails: the entries are not numbered — see the counterexample.) -/
theorem searchResultFormatting (st : Store) (p : SearchParams)
    (hp : (falsyStr p.client_name && falsyStr p.car_brand &&
      falsyStr p.car_model && falsyStr p.service_description) = false) :
    (∀ r, repoSearchServiceRecords st p true = [r] →
      (handleSearchService st (some p)).2 =
        ChatOutcome.ok
          { success := true, message := detailMsgFound st r,
            service_records := [r] } ∧
      ContainsStr (detailMsgFound st r) r.servico ∧
      ContainsStr (detailMsgFound st r) (dateStr r.date) ∧
      ContainsStr (detailMsgFound st r) (valorStr r.valor) ∧
      ContainsStr (detailMsgFound st r) (obsStr r.observations) ∧
      (∀ car cl, findCar st r = some car → findOwner st car = some cl →
        ContainsStr (detailMsgFound st r) cl.name ∧
        ContainsStr (detailMsgFound st r) (pyStrOpt car.brand) ∧
        ContainsStr (detailMsgFound st r) car.model)) ∧
    (∀ rs, repoSearchServiceRecords st p true = rs → 2 ≤ rs.length →
      (handleSearchService st (some p)).2 =
        ChatOutcome.ok
          { success := true,
            message := "Encontrei múltiplos serviços ativos. Por favor, especifique a qual você se refere\n"
              ++ formatServiceRecords st rs,
            service_records := rs } ∧
      ∀ r ∈ rs,
        ContainsStr (formatServiceRecords st rs) r.servico ∧
        ContainsStr (formatServiceRecords st rs) (dateStr r.date) ∧
        (∀ car cl, findCar st r = some car → findOwner st car = some cl →
          ContainsStr (formatServiceRecords st rs) cl.name ∧
          ContainsStr (formatServiceRecords st rs) (carInfo (some car)))) := by
  constructor
  · intro r hr
    have hsvc := svcSearch_found st p [r] hp hr (by simp)
    refine ⟨?_, ?_, ?_, ?_, ?_, ?_⟩
    · unfold handleSearchService
      dsimp only
      rw [hsvc]
      rfl
    · exact containsStr_appendr _ (detailBody_contains_servico st r)
    · exact containsStr_appendr _ (detailBody_contains_date st r)
    · exact containsStr_appendr _ (detailBody_contains_valor st r)
    · exact containsStr_appendr _ (detailBody_contains_obs st r)
    · intro car cl hcar hcl
      obtain ⟨h1, h2, h3⟩ := detailBody_contains_entities st r car cl hcar hcl
      exact ⟨containsStr_appendr _ h1, containsStr_appendr _ h2,
        containsStr_appendr _ h3⟩
  · intro rs hr hlen
    match rs, hlen with
    | a :: b :: t, _ =>
      have hsvc := svcSearch_found st p (a :: b :: t) hp hr (by simp)
      refine ⟨?_, ?_⟩
      · unfold handleSearchService
        dsimp only
        rw [hsvc]
        rfl
      · intro r hmem
        have hentry : ContainsStr (formatServiceRecords st (a :: b :: t))
            (formatEntry st r) := by
          unfold formatServiceRecords
          exact joinNL_contains _ _ (List.mem_map_of_mem _ hmem)
        refine ⟨containsStr_trans hentry (formatEntry_contains_servico st r),
          containsStr_trans hentry (formatEntry_contains_date st r), ?_⟩
        intro car cl hcar hcl
        obtain ⟨h1, h2⟩ := formatEntry_contains_entities st r car cl hcar hcl
        exact ⟨containsStr_trans hentry h1, containsStr_trans hentry h2⟩

/-- C8 counterexample: a two-record search result produces the
disambiguation message, but the message contains no `1` character at
all (every rendered field of the fixture is digit-`1`-free), so it
cannot be a 1-indexed enumeration of the two matches. -/
theorem searchResultFormatting_counterexample :
    (handleSearchService exStoreAna (some { client_name := some "ana" })).2 =
      ChatOutcome.ok
        { success := true, message := multiMsgAna,
          service_records := [exRecB, exRecA] } ∧
    2 ≤ ([exRecB, exRecA] : List ServiceRecord).length ∧
    strHasChar multiMsgAna '1' = false := by
  refine ⟨rfl, by decide, by decide⟩

/-- Witness for C8 at a one-record search on `exStoreFull`. -/
theorem searchResultFormatting_witness :
    (falsyStr ({ car_model := some "civ" } : SearchParams).client_name &&
      falsyStr ({ car_model := some "civ" } : SearchParams).car_brand &&
      falsyStr ({ car_model := some "civ" } : SearchParams).car_model &&
      falsyStr ({ car_model := some "civ" } : SearchParams).service_description)
      = false ∧
    repoSearchServiceRecords exStoreFull { car_model := some "civ" } true =
      [exRecord1] ∧
    (handleSearchService exStoreFull (some { car_model := some "civ" })).2 =
      ChatOutcome.ok
        { success := true, message := detailMsgFound exStoreFull exRecord1,
          service_records := [exRecord1] } :=
  ⟨rfl, rfl,
   ((searchResultFormatting exStoreFull { car_model := some "civ" } rfl).1
     exRecord1 rfl).1⟩

end Oficina



